import Mathlib

/-!
Verification development for the SignBridge translator core
(`translator/views.py`, `translator/models.py`).

The Python views are shallowly embedded as pure Lean functions over an
explicit database state.  Timestamps are naturals, floats are rationals,
the remote Gemini call is an environment parameter (`RemoteOutcome`)
describing what the external world does, and `random.choice` takes its
index from the environment as well.
-/

namespace SignBridge

/-! ### JSON values

Embeds the Python values that `json.loads` can produce (dict, list, str,
int/float, bool, None).  Numbers are rationals; the nonfinite literals
`NaN`/`Infinity` that the Python parser also accepts have no rational
image and are outside this model. -/

inductive Json where
  | null : Json
  | bool (b : Bool) : Json
  | num (q : ℚ) : Json
  | str (s : String) : Json
  | arr (xs : List Json) : Json
  | obj (kvs : List (String × Json)) : Json
  deriving Repr

/-- Python `dict.get(key, default)`.  A dict built by `json.loads` keeps
the last occurrence of a duplicated key, so lookup scans from the right. -/
def pyDictGet (kvs : List (String × Json)) (key : String) (dflt : Json) : Json :=
  match kvs.reverse.find? (fun kv => kv.1 = key) with
  | some kv => kv.2
  | none => dflt

/-- Python truth-value coercion of a numeric comparison operand:
`x < 0.3` succeeds for int/float/bool operands and raises `TypeError`
for every other type.  Returns the operand as a rational when defined. -/
def toNumQ : Json → Option ℚ
  | Json.num q => some q
  | Json.bool b => some (if b then 1 else 0)
  | _ => none

/-! ### `json.loads` — a fuel-based recursive-descent JSON parser -/

def jsonWs (c : Char) : Bool :=
  c = ' ' ∨ c = '\t' ∨ c = '\n' ∨ c = '\r'

def skipWs (cs : List Char) : List Char :=
  cs.dropWhile jsonWs

def isJsonDigit (c : Char) : Bool := '0' ≤ c ∧ c ≤ '9'

def hexVal (c : Char) : Option Nat :=
  if '0' ≤ c ∧ c ≤ '9' then some (c.toNat - '0'.toNat)
  else if 'a' ≤ c ∧ c ≤ 'f' then some (c.toNat - 'a'.toNat + 10)
  else if 'A' ≤ c ∧ c ≤ 'F' then some (c.toNat - 'A'.toNat + 10)
  else none

/-- Body of a JSON string literal, after the opening quote.  Control
characters must be escaped; `\uXXXX` yields the code point (surrogate
pairing is not modelled). -/
def parseStringBody : List Char → Option (String × List Char)
  | [] => none
  | '"' :: rest => some ("", rest)
  | '\\' :: 'u' :: h1 :: h2 :: h3 :: h4 :: rest => do
    let v1 ← hexVal h1
    let v2 ← hexVal h2
    let v3 ← hexVal h3
    let v4 ← hexVal h4
    let code := ((v1 * 16 + v2) * 16 + v3) * 16 + v4
    let c := Char.ofNat code
    let (s, r) ← parseStringBody rest
    some (String.mk (c :: s.data), r)
  | '\\' :: e :: rest => do
    let c ← match e with
      | '"' => some '"'
      | '\\' => some '\\'
      | '/' => some '/'
      | 'b' => some (Char.ofNat 8)
      | 'f' => some (Char.ofNat 12)
      | 'n' => some '\n'
      | 'r' => some '\r'
      | 't' => some '\t'
      | _ => none
    let (s, r) ← parseStringBody rest
    some (String.mk (c :: s.data), r)
  | c :: rest =>
    if c.toNat < 32 then none
    else do
      let (s, r) ← parseStringBody rest
      some (String.mk (c :: s.data), r)

def digitsToNat (ds : List Char) : Nat :=
  ds.foldl (fun acc c => acc * 10 + (c.toNat - '0'.toNat)) 0

/-- JSON number grammar: `-? int frac? exp?` with `int = 0 | [1-9][0-9]*`. -/
def parseNumber (cs : List Char) : Option (ℚ × List Char) :=
  let (neg, cs1) : Bool × List Char :=
    match cs with
    | '-' :: rest => (true, rest)
    | _ => (false, cs)
  let intDigits := cs1.takeWhile isJsonDigit
  let cs2 := cs1.drop intDigits.length
  if intDigits = [] then none
  else if intDigits.length > 1 ∧ intDigits.head? = some '0' then none
  else
    let ipart : ℚ := (digitsToNat intDigits : ℚ)
    let (fracOk, fpart, cs3) : Bool × ℚ × List Char :=
      match cs2 with
      | '.' :: rest =>
        let fd := rest.takeWhile isJsonDigit
        if fd = [] then (false, 0, rest)
        else (true, (digitsToNat fd : ℚ) / ((10 : ℚ) ^ fd.length), rest.drop fd.length)
      | _ => (true, 0, cs2)
    if ¬ fracOk then none
    else
      match cs3 with
      | 'e' :: rest => parseExp neg (ipart + fpart) rest
      | 'E' :: rest => parseExp neg (ipart + fpart) rest
      | _ => some ((if neg then -(ipart + fpart) else ipart + fpart), cs3)
where
  parseExp (neg : Bool) (mant : ℚ) (cs : List Char) : Option (ℚ × List Char) :=
    let (eneg, cs1) : Bool × List Char :=
      match cs with
      | '-' :: rest => (true, rest)
      | '+' :: rest => (false, rest)
      | _ => (false, cs)
    let ed := cs1.takeWhile isJsonDigit
    if ed = [] then none
    else
      let e := digitsToNat ed
      let scaled := if eneg then mant / ((10 : ℚ) ^ e) else mant * ((10 : ℚ) ^ e)
      some ((if neg then -scaled else scaled), cs1.drop ed.length)

mutual

def parseVal : Nat → List Char → Option (Json × List Char)
  | 0, _ => none
  | Nat.succ f, cs =>
    match skipWs cs with
    | 'n' :: 'u' :: 'l' :: 'l' :: rest => some (Json.null, rest)
    | 't' :: 'r' :: 'u' :: 'e' :: rest => some (Json.bool true, rest)
    | 'f' :: 'a' :: 'l' :: 's' :: 'e' :: rest => some (Json.bool false, rest)
    | '"' :: rest => do
      let (s, r) ← parseStringBody rest
      some (Json.str s, r)
    | '[' :: rest =>
      (match skipWs rest with
       | ']' :: r => some (Json.arr [], r)
       | _ => do
         let (xs, r) ← parseElems f rest
         some (Json.arr xs, r))
    | '{' :: rest =>
      (match skipWs rest with
       | '}' :: r => some (Json.obj [], r)
       | _ => do
         let (kvs, r) ← parseMembers f rest
         some (Json.obj kvs, r))
    | rest => do
      let (q, r) ← parseNumber rest
      some (Json.num q, r)

def parseElems : Nat → List Char → Option (List Json × List Char)
  | 0, _ => none
  | Nat.succ f, cs => do
    let (v, r1) ← parseVal f cs
    match skipWs r1 with
    | ',' :: r2 => do
      let (vs, r3) ← parseElems f r2
      some (v :: vs, r3)
    | ']' :: r2 => some ([v], r2)
    | _ => none

def parseMembers : Nat → List Char → Option (List (String × Json) × List Char)
  | 0, _ => none
  | Nat.succ f, cs => do
    match skipWs cs with
    | '"' :: rest => do
      let (k, r1) ← parseStringBody rest
      match skipWs r1 with
      | ':' :: r2 => do
        let (v, r3) ← parseVal f r2
        match skipWs r3 with
        | ',' :: r4 => do
          let (kvs, r5) ← parseMembers f r4
          some ((k, v) :: kvs, r5)
        | '}' :: r4 => some ([(k, v)], r4)
        | _ => none
      | _ => none
    | _ => none

end

/-- `json.loads`: parse one JSON value, allowing only trailing whitespace. -/
def jsonLoads (s : String) : Option Json :=
  match parseVal (s.length + 1) s.data with
  | some (v, rest) => if skipWs rest = [] then some v else none
  | none => none

/-! ### Python string and base64 helpers -/

/-- The whitespace set of Python `str.strip()` (ASCII part). -/
def isPyWs (c : Char) : Bool :=
  c = ' ' ∨ c = '\t' ∨ c = '\n' ∨ c = '\r' ∨ c = Char.ofNat 11 ∨ c = Char.ofNat 12

/-- Python `str.strip()` with no argument: remove whitespace from both
ends. -/
def pyStrip (s : String) : String :=
  String.mk (((s.data.dropWhile isPyWs).reverse.dropWhile isPyWs).reverse)

/-- Python `str.split(sep)` for a nonempty separator `sepHead :: sepTail`:
scan left to right, cutting at each non-overlapping occurrence.  The fuel
is the input length, which one scan never exhausts. -/
def splitOnSepFuel (sepHead : Char) (sepTail : List Char) :
    Nat → List Char → List Char → List (List Char)
  | _, [], acc => [acc.reverse]
  | 0, cs, acc => [acc.reverse ++ cs]
  | Nat.succ f, c :: rest, acc =>
    if (sepHead :: sepTail).isPrefixOf (c :: rest) then
      acc.reverse :: splitOnSepFuel sepHead sepTail f (rest.drop sepTail.length) []
    else
      splitOnSepFuel sepHead sepTail f rest (c :: acc)

def pySplit (s : String) (sepHead : Char) (sepTail : List Char) : List (List Char) :=
  splitOnSepFuel sepHead sepTail s.data.length s.data []

/-- The code-fence stripping of `analyze_sign_with_ai` (views.py lines 61-64):
if the text starts with three backticks, keep the segment between the first
and second fence, then drop a leading `json` tag. -/
def stripFences (text : String) : String :=
  if ['`', '`', '`'].isPrefixOf text.data then
    let t := (pySplit text '`' ['`', '`']).getD 1 []
    if ['j', 's', 'o', 'n'].isPrefixOf t then String.mk (t.drop 4) else String.mk t
  else text

/-- The data-URI prefix handling used in both `analyze_sign_with_ai` and
`analyze_frame`: if a comma occurs, take the segment after the first comma
(Python `s.split(",")[1]`). -/
def commaSegment (s : String) : String :=
  if s.data.contains ',' then String.mk ((pySplit s ',' []).getD 1 []) else s

def b64CharVal (c : Char) : Option Nat :=
  if 'A' ≤ c ∧ c ≤ 'Z' then some (c.toNat - 'A'.toNat)
  else if 'a' ≤ c ∧ c ≤ 'z' then some (c.toNat - 'a'.toNat + 26)
  else if '0' ≤ c ∧ c ≤ '9' then some (c.toNat - '0'.toNat + 52)
  else if c = '+' then some 62
  else if c = '/' then some 63
  else none

def isB64Char (c : Char) : Bool := (b64CharVal c).isSome

/-- Decode complete groups of four base64 characters into three bytes each. -/
def b64Quads : List Char → Option (List Nat)
  | [] => some []
  | a :: b :: c :: d :: rest => do
    let va ← b64CharVal a
    let vb ← b64CharVal b
    let vc ← b64CharVal c
    let vd ← b64CharVal d
    let bs ← b64Quads rest
    some ((va * 4 + vb / 16) :: ((vb % 16) * 16 + vc / 4) :: ((vc % 4) * 64 + vd) :: bs)
  | _ => none

/-- Python `base64.b64decode(s)` with the default lenient validation:
non-ASCII input raises; characters outside the base64 alphabet are
discarded; afterwards the data must form whole quads with correct `=`
padding (a leftover of 1, or missing/misplaced padding, raises).
`none` models the raised `ValueError`/`binascii.Error`. -/
def pyB64Decode (s : String) : Option (List Nat) :=
  if s.data.any (fun c => 128 ≤ c.toNat) then none
  else
    let kept := s.data.filter (fun c => isB64Char c ∨ c = '=')
    let pad := (kept.reverse.takeWhile (fun c => c = '=')).length
    let body := kept.take (kept.length - pad)
    if body.any (fun c => c = '=') then none
    else if pad ≤ 2 ∧ (body.length + pad) % 4 = 0 then
      let main := body.take ((body.length / 4) * 4)
      let tail := body.drop ((body.length / 4) * 4)
      match b64Quads main, tail with
      | some bs, [] => some bs
      | some bs, [a, b] => do
        let va ← b64CharVal a
        let vb ← b64CharVal b
        some (bs ++ [va * 4 + vb / 16])
      | some bs, [a, b, c] => do
        let va ← b64CharVal a
        let vb ← b64CharVal b
        let vc ← b64CharVal c
        some (bs ++ [va * 4 + vb / 16, (vb % 16) * 16 + vc / 4])
      | _, _ => none
    else none

/-- Round half to even at integer precision, as Python `round` does. -/
def roundHalfEven (q : ℚ) : ℤ :=
  let f := Int.floor q
  let r := q - f
  if r < 1 / 2 then f
  else if 1 / 2 < r then f + 1
  else if f % 2 = 0 then f else f + 1

/-- Python `round(x, 1)` on the rational model of a float. -/
def pyRound1 (q : ℚ) : ℚ := (roundHalfEven (q * 10) : ℚ) / 10

/-! ### AI interpretation gateway (`analyze_sign_with_ai`, `_demo_response`) -/

/-- What the external world does when `analyze_sign_with_ai` runs: the
`google.generativeai` import fails, some step of the remote interaction
(configure, image open, network call) raises, or the model answers with a
response text. -/
inductive RemoteOutcome where
  | importError : RemoteOutcome
  | callError : RemoteOutcome
  | response (text : String) : RemoteOutcome

/-- Environment of one request: the remote outcome plus the index drawn by
`random.choice` for the fallback catalog. -/
structure Env where
  remote : RemoteOutcome
  rand : Nat

/-- The fixed fallback catalog of `_demo_response` (views.py lines 80-91). -/
def demoSigns : List Json :=
  [Json.obj [("detected_sign", Json.str ("Hello")),
             ("translated_text", Json.str ("Hello!")),
             ("confidence_score", Json.num (92 / 100)),
             ("description", Json.str ("Open hand wave near face"))],
   Json.obj [("detected_sign", Json.str ("Thank You")),
             ("translated_text", Json.str ("Thank you very much.")),
             ("confidence_score", Json.num (88 / 100)),
             ("description", Json.str ("Hand moves away from chin"))],
   Json.obj [("detected_sign", Json.str ("Help")),
             ("translated_text", Json.str ("Please help me.")),
             ("confidence_score", Json.num (85 / 100)),
             ("description", Json.str ("Thumbs up on flat palm"))],
   Json.obj [("detected_sign", Json.str ("Yes")),
             ("translated_text", Json.str ("Yes.")),
             ("confidence_score", Json.num (95 / 100)),
             ("description", Json.str ("Fist nodding motion"))],
   Json.obj [("detected_sign", Json.str ("Love")),
             ("translated_text", Json.str ("I love you.")),
             ("confidence_score", Json.num (90 / 100)),
             ("description", Json.str ("ILY handshape"))]]

/-- `_demo_response`: `random.choice(demo_signs)`, the drawn index coming
from the environment. -/
def _demo_response (k : Nat) : Json := demoSigns.getD (k % 5) Json.null

set_option linter.unusedVariables false in
/-- `analyze_sign_with_ai(image_base64, sign_language_code)`.  Every
exception inside the function body (missing library, base64 decode error,
image or network failure, JSON parse error) is caught and answered with
`_demo_response`; a successfully parsed response is returned as is, even
when it is not an object.  The `sign_language_code` argument only shapes
the natural-language prompt and does not influence the result structure. -/
def analyze_sign_with_ai (image_base64 : String) (sign_language_code : String)
    (env : Env) : Json :=
  match env.remote with
  | RemoteOutcome.importError => _demo_response env.rand
  | RemoteOutcome.callError => _demo_response env.rand
  | RemoteOutcome.response t =>
    if pyB64Decode (commaSegment image_base64) = none then _demo_response env.rand
    else
      let text := stripFences (pyStrip t)
      match jsonLoads text with
      | some v => v
      | none => _demo_response env.rand

/-! ### Data model (`translator/models.py`)

Rows are Lean structures, the database is explicit lists of rows, primary
keys are naturals handed out by a counter, timestamps are naturals.  A
foreign key is stored as the referenced key (`sign_language` by its unique
`code`).  String-typed columns written from `ai_result.get(...)` keep the
raw in-memory Python value (a `Json`), matching what the view later echoes
back; the str-coercion Django applies on the stored column is not
observable through any endpoint and is not modelled. -/

structure SignLanguageType where
  name : String
  code : String
  description : String
  is_active : Bool
  deriving DecidableEq, Repr

structure TranslationSession where
  id : Nat
  user : Option Nat
  sign_language : Option String
  started_at : Nat
  ended_at : Option Nat
  status : String
  device_info : String
  deriving DecidableEq, Repr

structure TranslationRecord where
  id : Nat
  session : Nat
  frame_image : Option (List Nat)
  detected_sign : Json
  translated_text : Json
  confidence_score : ℚ
  created_at : Nat
  deriving Repr

structure UserProfile where
  user : Nat
  role : String
  total_translations : Nat
  deriving DecidableEq, Repr

structure Feedback where
  id : Nat
  record : Nat
  user : Option Nat
  rating : Int
  correct_translation : String
  comment : String
  deriving DecidableEq, Repr

structure DB where
  languages : List SignLanguageType
  sessions : List TranslationSession
  records : List TranslationRecord
  profiles : List UserProfile
  feedbacks : List Feedback
  nextRecordId : Nat
  nextFeedbackId : Nat
  deriving Repr

def findSession (db : DB) (sid : Nat) : Option TranslationSession :=
  db.sessions.find? (fun s => s.id = sid)

def findLanguage (db : DB) (code : String) : Option SignLanguageType :=
  db.languages.find? (fun l => l.code = code)

def findProfile (db : DB) (uid : Nat) : Option UserProfile :=
  db.profiles.find? (fun p => p.user = uid)

/-- The variant update of `analyze_frame` (views.py lines 148-153):
`SignLanguageType.objects.get(code=...)`; found → write it to the session,
`DoesNotExist` → `pass`. -/
def setSessionVariant (db : DB) (sid : Nat) (code : String) : DB :=
  match findLanguage db code with
  | none => db
  | some sl =>
    { db with sessions := db.sessions.map (fun s =>
        if s.id = sid then { s with sign_language := some sl.code } else s) }

/-! ### Usage accounting (views.py lines 184-188)

The block is split into its primitive storage operations so that the
concurrency analysis can interleave them: `get_or_create` fetches (and
creates on first use), the subsequent `.update(total_translations =
profile.total_translations + 1)` stores a value computed in application
code from that earlier fetch. -/

/-- `UserProfile.objects.get_or_create(user=...)`: insert a default row
(role `hearing`, counter 0) when none exists. -/
def getOrCreateProfile (db : DB) (uid : Nat) : DB :=
  if (findProfile db uid).isSome then db
  else { db with profiles := db.profiles ++ [⟨uid, "hearing", 0⟩] }

/-- The counter value held by the fetched profile object. -/
def readTotal (db : DB) (uid : Nat) : Nat :=
  match findProfile db uid with
  | some p => p.total_translations
  | none => 0

/-- `UserProfile.objects.filter(pk=...).update(total_translations = v + 1)`
where `v` is the value read earlier in application code: the stored column
becomes `v + 1`, whatever it holds now. -/
def writeTotal (db : DB) (uid : Nat) (v : Nat) : DB :=
  { db with profiles := db.profiles.map (fun p =>
      if p.user = uid then { p with total_translations := v + 1 } else p) }

/-- The whole stats block as executed by one request with no interleaving. -/
def updateUserStats (db : DB) (uid : Nat) : DB :=
  let db1 := getOrCreateProfile db uid
  writeTotal db1 uid (readTotal db1 uid)

/-! ### The `analyze_frame` endpoint (views.py lines 129-200) -/

structure FrameRequest where
  frame : String
  session_id : Option Nat
  sign_language : String
  user : Option Nat
  deriving DecidableEq, Repr

/-- Observable responses of `analyze_frame`.  `get_object_or_404` raises
`Http404`, which the blanket `except Exception` turns into a 500 error
body, distinguishable by its message — hence a constructor of its own. -/
inductive FrameResp where
  | missingFields : FrameResp
  | sessionNotFound : FrameResp
  | internalError : FrameResp
  | lowConfidence : FrameResp
  | success (record_id : Nat) (detected_sign translated_text : Json)
      (confidence_score : ℚ) (description : Json) : FrameResp

def FrameResp.httpStatus : FrameResp → Nat
  | FrameResp.missingFields => 400
  | FrameResp.sessionNotFound => 500
  | FrameResp.internalError => 500
  | _ => 200

/-- Python falsiness of the `session_id` request field: absent (`None`)
or the integer `0`. -/
def sidFalsy : Option Nat → Bool
  | none => true
  | some n => n = 0

/-- The stats step of `analyze_frame`: run only for authenticated users. -/
def maybeStats (user : Option Nat) (db : DB) : DB :=
  match user with
  | some uid => updateUserStats db uid
  | none => db

/-- The tail of `analyze_frame` after the variant update (views.py lines
156-197): AI call, confidence gate at `< 0.3`, thumbnail decode, record
insert, stats update, success response with the confidence scaled by 100
and rounded to one decimal.  Exceptions in this stretch (bad base64,
`.get` on a non-dict result, comparing a non-number to 0.3) are caught by
the blanket handler and surface as `internalError`. -/
def processFrame (req : FrameRequest) (env : Env) (now sid : Nat) (db : DB) :
    FrameResp × DB :=
  match analyze_sign_with_ai req.frame req.sign_language env with
  | Json.obj kvs =>
    match toNumQ (pyDictGet kvs "confidence_score" (Json.num 0)) with
    | none => (FrameResp.internalError, db)
    | some c =>
      if c < 3 / 10 then (FrameResp.lowConfidence, db)
      else
        match pyB64Decode (commaSegment req.frame) with
        | none => (FrameResp.internalError, db)
        | some bytes =>
          let record : TranslationRecord :=
            { id := db.nextRecordId, session := sid, frame_image := some bytes,
              detected_sign := pyDictGet kvs "detected_sign" (Json.str ("")),
              translated_text := pyDictGet kvs "translated_text" (Json.str ("")),
              confidence_score := c, created_at := now }
          let db2 := { db with records := db.records ++ [record],
                               nextRecordId := db.nextRecordId + 1 }
          (FrameResp.success record.id record.detected_sign record.translated_text
             (pyRound1 (record.confidence_score * 100))
             (pyDictGet kvs "description" (Json.str (""))),
           maybeStats req.user db2)
  | _ => (FrameResp.internalError, db)

/-- `analyze_frame`: field extraction and falsiness check, session lookup
(`Http404` surfacing through the blanket handler when absent), silent
variant update, then `processFrame`. -/
def analyze_frame (req : FrameRequest) (env : Env) (now : Nat) (db : DB) :
    FrameResp × DB :=
  if req.frame = "" ∨ sidFalsy req.session_id then (FrameResp.missingFields, db)
  else
    match req.session_id with
    | none => (FrameResp.missingFields, db)
    | some sid =>
      match findSession db sid with
      | none => (FrameResp.sessionNotFound, db)
      | some _ =>
        processFrame req env now sid (setSessionVariant db sid req.sign_language)

/-! ### The `end_session` endpoint (views.py lines 203-216) -/

inductive EndResp where
  | ok : EndResp
  | sessionNotFound : EndResp
  deriving DecidableEq, Repr

/-- `end_session`: look the session up (`Http404` when absent, surfaced by
the blanket handler as a 500 error body), then unconditionally set
`status = completed` and `ended_at = now` — no check of the prior status. -/
def end_session (session_id : Option Nat) (now : Nat) (db : DB) : EndResp × DB :=
  match session_id.bind (fun sid => findSession db sid) with
  | none => (EndResp.sessionNotFound, db)
  | some s =>
    (EndResp.ok,
     { db with sessions := db.sessions.map (fun t =>
         if t.id = s.id then { t with status := "completed", ended_at := some now }
         else t) })

/-! ### The `submit_feedback` endpoint (views.py lines 219-235) -/

structure FeedbackRequest where
  record_id : Option Nat
  rating : Option Int
  correct_translation : String
  comment : String
  user : Option Nat
  deriving DecidableEq, Repr

inductive FeedbackResp where
  | ok : FeedbackResp
  | recordNotFound : FeedbackResp
  deriving DecidableEq, Repr

/-- `submit_feedback`: look the record up (`Http404` when absent), then
create the `Feedback` row with `rating = data.get('rating', 3)` — the
supplied value is stored without any range check. -/
def submit_feedback (req : FeedbackRequest) (db : DB) : FeedbackResp × DB :=
  match req.record_id.bind (fun r => db.records.find? (fun t => t.id = r)) with
  | none => (FeedbackResp.recordNotFound, db)
  | some record =>
    let fb : Feedback :=
      { id := db.nextFeedbackId, record := record.id, user := req.user,
        rating := req.rating.getD 3,
        correct_translation := req.correct_translation, comment := req.comment }
    (FeedbackResp.ok,
     { db with feedbacks := db.feedbacks ++ [fb],
               nextFeedbackId := db.nextFeedbackId + 1 })

/-! ### Interleaved executions of the stats block

One frame request runs `getOrCreateProfile`, then computes the new counter
from the fetched value, then runs the store.  Requests execute in parallel
handlers, so the primitive steps of two requests may interleave. -/

/-- The schedule in which both requests fetch the profile before either
stores: A fetch, B fetch, A store, B store. -/
def interleavedTwoIncrements (db : DB) (uid : Nat) : DB :=
  let db1 := getOrCreateProfile db uid
  let vA := readTotal db1 uid
  let db2 := getOrCreateProfile db1 uid
  let vB := readTotal db2 uid
  let db3 := writeTotal db2 uid vA
  writeTotal db3 uid vB

/-- N accepted submissions whose stats blocks run one after the other. -/
def serializedIncrements (db : DB) (uid : Nat) (n : Nat) : DB :=
  (fun d => updateUserStats d uid)^[n] db

/-- Lines 158 and 167 read the classification confidence through
`ai_result.get('confidence_score', 0)` and use it as a number; this names
that access (`none` when the access or the numeric use would raise). -/
def aiConfidence (ai : Json) : Option ℚ :=
  match ai with
  | Json.obj kvs => toNumQ (pyDictGet kvs ("confidence_score") (Json.num 0))
  | _ => none

/-! ### Sample data for concrete runs -/

/-- A registry with ASL and one active session (id 1, owner user 10). -/
def sampleDB : DB :=
  { languages := [{ name := "American Sign Language", code := "ASL",
                    description := "", is_active := true }],
    sessions := [{ id := 1, user := some 10, sign_language := none,
                   started_at := 0, ended_at := none, status := "active",
                   device_info := "" }],
    records := [], profiles := [], feedbacks := [],
    nextRecordId := 1, nextFeedbackId := 1 }

/-- `sampleDB` with one persisted record (id 7) available for feedback. -/
def sampleDBWithRecord : DB :=
  { sampleDB with
    records := [{ id := 7, session := 1, frame_image := some [65, 66, 67],
                  detected_sign := Json.str ("Hello"),
                  translated_text := Json.str ("Hello!"),
                  confidence_score := 92 / 100, created_at := 3 }],
    nextRecordId := 8 }

/-- `sampleDB` with user 10 already holding 5 translations. -/
def sampleDBCounter : DB :=
  { sampleDB with
    profiles := [{ user := 10, role := "hearing", total_translations := 5 }] }

/-- The record built in the accept branch of `processFrame`. -/
def acceptedRecord (now sid : Nat) (db : DB)
    (kvs : List (String × Json)) (c : ℚ) (bytes : List Nat) : TranslationRecord :=
  { id := db.nextRecordId, session := sid, frame_image := some bytes,
    detected_sign := pyDictGet kvs ("detected_sign") (Json.str ("")),
    translated_text := pyDictGet kvs ("translated_text") (Json.str ("")),
    confidence_score := c, created_at := now }

/-! ### Preservation lemmas -/

theorem setSessionVariant_records (db : DB) (sid : Nat) (code : String) :
    (setSessionVariant db sid code).records = db.records := by
  unfold setSessionVariant
  cases findLanguage db code <;> rfl

theorem setSessionVariant_profiles (db : DB) (sid : Nat) (code : String) :
    (setSessionVariant db sid code).profiles = db.profiles := by
  unfold setSessionVariant
  cases findLanguage db code <;> rfl

theorem setSessionVariant_nextRecordId (db : DB) (sid : Nat) (code : String) :
    (setSessionVariant db sid code).nextRecordId = db.nextRecordId := by
  unfold setSessionVariant
  cases findLanguage db code <;> rfl

theorem getOrCreateProfile_records (db : DB) (uid : Nat) :
    (getOrCreateProfile db uid).records = db.records := by
  unfold getOrCreateProfile
  split <;> rfl

theorem getOrCreateProfile_sessions (db : DB) (uid : Nat) :
    (getOrCreateProfile db uid).sessions = db.sessions := by
  unfold getOrCreateProfile
  split <;> rfl

theorem writeTotal_records (db : DB) (uid v : Nat) :
    (writeTotal db uid v).records = db.records := rfl

theorem writeTotal_sessions (db : DB) (uid v : Nat) :
    (writeTotal db uid v).sessions = db.sessions := rfl

theorem updateUserStats_records (db : DB) (uid : Nat) :
    (updateUserStats db uid).records = db.records := by
  unfold updateUserStats
  rw [writeTotal_records, getOrCreateProfile_records]

theorem updateUserStats_sessions (db : DB) (uid : Nat) :
    (updateUserStats db uid).sessions = db.sessions := by
  unfold updateUserStats
  rw [writeTotal_sessions, getOrCreateProfile_sessions]

theorem maybeStats_records (user : Option Nat) (db : DB) :
    (maybeStats user db).records = db.records := by
  unfold maybeStats
  cases user with
  | none => rfl
  | some uid => exact updateUserStats_records db uid

theorem maybeStats_sessions (user : Option Nat) (db : DB) :
    (maybeStats user db).sessions = db.sessions := by
  unfold maybeStats
  cases user with
  | none => rfl
  | some uid => exact updateUserStats_sessions db uid

/-! ### Branch characterizations of `processFrame` and `analyze_frame` -/

theorem processFrame_notObj (req : FrameRequest) (env : Env) (now sid : Nat)
    (db : DB) (h : ∀ kvs, analyze_sign_with_ai req.frame req.sign_language env ≠ Json.obj kvs) :
    processFrame req env now sid db = (FrameResp.internalError, db) := by
  unfold processFrame
  cases hai : analyze_sign_with_ai req.frame req.sign_language env <;>
    first
    | rfl
    | exact absurd hai (h _)

theorem processFrame_numFail (req : FrameRequest) (env : Env) (now sid : Nat)
    (db : DB) (kvs : List (String × Json))
    (hobj : analyze_sign_with_ai req.frame req.sign_language env = Json.obj kvs)
    (hc : toNumQ (pyDictGet kvs ("confidence_score") (Json.num 0)) = none) :
    processFrame req env now sid db = (FrameResp.internalError, db) := by
  unfold processFrame
  rw [hobj]
  simp only [hc]

theorem processFrame_low (req : FrameRequest) (env : Env) (now sid : Nat)
    (db : DB) (kvs : List (String × Json)) (c : ℚ)
    (hobj : analyze_sign_with_ai req.frame req.sign_language env = Json.obj kvs)
    (hc : toNumQ (pyDictGet kvs ("confidence_score") (Json.num 0)) = some c)
    (hlt : c < 3 / 10) :
    processFrame req env now sid db = (FrameResp.lowConfidence, db) := by
  unfold processFrame
  rw [hobj]
  simp only [hc, if_pos hlt]

theorem processFrame_badDecode (req : FrameRequest) (env : Env) (now sid : Nat)
    (db : DB) (kvs : List (String × Json)) (c : ℚ)
    (hobj : analyze_sign_with_ai req.frame req.sign_language env = Json.obj kvs)
    (hc : toNumQ (pyDictGet kvs ("confidence_score") (Json.num 0)) = some c)
    (hge : ¬ c < 3 / 10)
    (hdec : pyB64Decode (commaSegment req.frame) = none) :
    processFrame req env now sid db = (FrameResp.internalError, db) := by
  unfold processFrame
  rw [hobj]
  simp only [hc, if_neg hge, hdec]

theorem processFrame_accept (req : FrameRequest) (env : Env) (now sid : Nat)
    (db : DB) (kvs : List (String × Json)) (c : ℚ) (bytes : List Nat)
    (hobj : analyze_sign_with_ai req.frame req.sign_language env = Json.obj kvs)
    (hc : toNumQ (pyDictGet kvs ("confidence_score") (Json.num 0)) = some c)
    (hge : ¬ c < 3 / 10)
    (hdec : pyB64Decode (commaSegment req.frame) = some bytes) :
    processFrame req env now sid db =
      (FrameResp.success db.nextRecordId
         (pyDictGet kvs ("detected_sign") (Json.str ("")))
         (pyDictGet kvs ("translated_text") (Json.str ("")))
         (pyRound1 (c * 100))
         (pyDictGet kvs ("description") (Json.str (""))),
       maybeStats req.user
         { db with records := db.records ++ [acceptedRecord now sid db kvs c bytes],
                   nextRecordId := db.nextRecordId + 1 }) := by
  unfold processFrame acceptedRecord
  rw [hobj]
  simp only [hc, if_neg hge, hdec]

theorem analyze_frame_missing (req : FrameRequest) (env : Env) (now : Nat)
    (db : DB) (h : req.frame = "" ∨ sidFalsy req.session_id) :
    analyze_frame req env now db = (FrameResp.missingFields, db) := by
  unfold analyze_frame
  rw [if_pos h]

theorem analyze_frame_notFound (req : FrameRequest) (env : Env) (now sid : Nat)
    (db : DB) (hfr : req.frame ≠ "") (hsid : req.session_id = some sid)
    (h0 : sid ≠ 0) (hfind : findSession db sid = none) :
    analyze_frame req env now db = (FrameResp.sessionNotFound, db) := by
  unfold analyze_frame
  rw [hsid]
  rw [if_neg (by simp [sidFalsy, hfr, h0])]
  simp only [hfind]

theorem analyze_frame_found (req : FrameRequest) (env : Env) (now sid : Nat)
    (db : DB) (s : TranslationSession) (hfr : req.frame ≠ "")
    (hsid : req.session_id = some sid) (h0 : sid ≠ 0)
    (hfind : findSession db sid = some s) :
    analyze_frame req env now db =
      processFrame req env now sid (setSessionVariant db sid req.sign_language) := by
  unfold analyze_frame
  rw [hsid]
  rw [if_neg (by simp [sidFalsy, hfr, h0])]
  simp only [hfind]

/-! ### Keyed row updates commute with lookup -/

theorem find?_map_profiles (ps : List UserProfile) (uid v : Nat) :
    (ps.map (fun p => if p.user = uid
                      then { p with total_translations := v + 1 } else p)).find?
        (fun p => p.user = uid) =
      (ps.find? (fun p => p.user = uid)).map
        (fun p => { p with total_translations := v + 1 }) := by
  induction ps with
  | nil => rfl
  | cons p ps ih =>
    by_cases h : p.user = uid
    · rw [List.map_cons, if_pos h,
        List.find?_cons_of_pos _ (by simp [h]),
        List.find?_cons_of_pos _ (by simp [h])]
      rfl
    · rw [List.map_cons, if_neg h,
        List.find?_cons_of_neg _ (by simp [h]),
        List.find?_cons_of_neg _ (by simp [h]), ih]

theorem findProfile_writeTotal (db : DB) (uid v : Nat) :
    findProfile (writeTotal db uid v) uid =
      (findProfile db uid).map (fun p => { p with total_translations := v + 1 }) := by
  unfold findProfile writeTotal
  exact find?_map_profiles db.profiles uid v

theorem readTotal_writeTotal (db : DB) (uid v : Nat)
    (h : (findProfile db uid).isSome) :
    readTotal (writeTotal db uid v) uid = v + 1 := by
  unfold readTotal
  rw [findProfile_writeTotal]
  obtain ⟨p, hp⟩ := Option.isSome_iff_exists.mp h
  rw [hp]
  rfl

theorem getOrCreateProfile_stable (db : DB) (uid : Nat)
    (h : (findProfile db uid).isSome) :
    getOrCreateProfile db uid = db := by
  unfold getOrCreateProfile
  rw [if_pos h]

theorem findProfile_getOrCreate_absent (db : DB) (uid : Nat)
    (h : findProfile db uid = none) :
    findProfile (getOrCreateProfile db uid) uid =
      some { user := uid, role := "hearing", total_translations := 0 } := by
  unfold getOrCreateProfile
  rw [if_neg (by rw [h]; simp)]
  unfold findProfile at *
  rw [List.find?_append, h]
  simp [List.find?]

theorem findProfile_getOrCreate_isSome (db : DB) (uid : Nat) :
    (findProfile (getOrCreateProfile db uid) uid).isSome := by
  cases hf : findProfile db uid with
  | some p => rw [getOrCreateProfile_stable db uid (by rw [hf]; rfl), hf]; rfl
  | none => rw [findProfile_getOrCreate_absent db uid hf]; rfl

theorem readTotal_getOrCreate (db : DB) (uid : Nat) :
    readTotal (getOrCreateProfile db uid) uid = readTotal db uid := by
  cases hf : findProfile db uid with
  | some p => rw [getOrCreateProfile_stable db uid (by rw [hf]; rfl)]
  | none =>
    unfold readTotal
    rw [findProfile_getOrCreate_absent db uid hf, hf]

theorem readTotal_updateUserStats (db : DB) (uid : Nat) :
    readTotal (updateUserStats db uid) uid = readTotal db uid + 1 := by
  unfold updateUserStats
  rw [readTotal_writeTotal _ _ _ (findProfile_getOrCreate_isSome db uid),
    readTotal_getOrCreate]

theorem serializedIncrements_total (db : DB) (uid n : Nat) :
    readTotal (serializedIncrements db uid n) uid = readTotal db uid + n := by
  induction n with
  | zero => rfl
  | succ n ih =>
    unfold serializedIncrements at *
    rw [Function.iterate_succ_apply', readTotal_updateUserStats, ih]
    ring

theorem interleavedTwoIncrements_total (db : DB) (uid : Nat) :
    readTotal (interleavedTwoIncrements db uid) uid = readTotal db uid + 1 := by
  have hstable : getOrCreateProfile (getOrCreateProfile db uid) uid =
      getOrCreateProfile db uid :=
    getOrCreateProfile_stable _ _ (findProfile_getOrCreate_isSome db uid)
  show readTotal
      (writeTotal
        (writeTotal (getOrCreateProfile (getOrCreateProfile db uid) uid) uid
          (readTotal (getOrCreateProfile db uid) uid))
        uid
        (readTotal (getOrCreateProfile (getOrCreateProfile db uid) uid) uid))
      uid = readTotal db uid + 1
  rw [hstable]
  have h2 : (findProfile (writeTotal (getOrCreateProfile db uid) uid
      (readTotal (getOrCreateProfile db uid) uid)) uid).isSome := by
    rw [findProfile_writeTotal]
    simpa using findProfile_getOrCreate_isSome db uid
  rw [readTotal_writeTotal _ _ _ h2, readTotal_getOrCreate]

theorem find?_map_sessions (ss : List TranslationSession) (sid now : Nat) :
    (ss.map (fun t => if t.id = sid
          then { t with status := "completed", ended_at := some now } else t)).find?
        (fun t => t.id = sid) =
      (ss.find? (fun t => t.id = sid)).map
        (fun t => { t with status := "completed", ended_at := some now }) := by
  induction ss with
  | nil => rfl
  | cons t ss ih =>
    by_cases h : t.id = sid
    · rw [List.map_cons, if_pos h,
        List.find?_cons_of_pos _ (by simp [h]),
        List.find?_cons_of_pos _ (by simp [h])]
      rfl
    · rw [List.map_cons, if_neg h,
        List.find?_cons_of_neg _ (by simp [h]),
        List.find?_cons_of_neg _ (by simp [h]), ih]

theorem end_session_notFound (db : DB) (sid : Option Nat) (now : Nat)
    (h : sid.bind (fun i => findSession db i) = none) :
    end_session sid now db = (EndResp.sessionNotFound, db) := by
  unfold end_session
  rw [h]

theorem end_session_found (db : DB) (sid now : Nat) (s : TranslationSession)
    (hfind : findSession db sid = some s) :
    end_session (some sid) now db =
      (EndResp.ok,
       { db with sessions := db.sessions.map (fun t =>
           if t.id = sid
           then { t with status := "completed", ended_at := some now } else t) }) := by
  have hid : s.id = sid := by
    have := List.find?_some hfind
    simpa using this
  unfold end_session
  rw [show Option.bind (some sid) (fun i => findSession db i) = some s from hfind]
  dsimp only
  rw [hid]

theorem findSession_end_session (db : DB) (sid now : Nat) (s : TranslationSession)
    (hfind : findSession db sid = some s) :
    findSession (end_session (some sid) now db).2 sid =
      some { s with status := "completed", ended_at := some now } := by
  rw [end_session_found db sid now s hfind]
  unfold findSession at *
  rw [find?_map_sessions, hfind]
  rfl

/-! ### The fallback catalog -/

theorem demo_response_mem (k : Nat) : _demo_response k ∈ demoSigns := by
  unfold _demo_response
  have h : k % 5 < demoSigns.length := Nat.mod_lt _ (by norm_num [demoSigns])
  rw [List.getD_eq_getElem _ _ h]
  exact List.getElem_mem h

theorem analyze_sign_with_ai_fallback (frame lang : String) (env : Env)
    (h : env.remote = RemoteOutcome.importError ∨ env.remote = RemoteOutcome.callError) :
    analyze_sign_with_ai frame lang env = _demo_response env.rand := by
  unfold analyze_sign_with_ai
  rcases h with h | h <;> rw [h]

theorem demoSigns_accept (d : Json) (hd : d ∈ demoSigns) :
    ∃ kvs c, d = Json.obj kvs ∧
      toNumQ (pyDictGet kvs ("confidence_score") (Json.num 0)) = some c ∧
      85 / 100 ≤ c := by
  fin_cases hd <;> exact ⟨_, _, rfl, rfl, by norm_num⟩

theorem readTotal_eq_of_profiles (db1 db2 : DB) (uid : Nat)
    (h : db1.profiles = db2.profiles) : readTotal db1 uid = readTotal db2 uid := by
  unfold readTotal findProfile
  rw [h]

theorem processFrame_sessions (req : FrameRequest) (env : Env) (now sid : Nat)
    (db : DB) : (processFrame req env now sid db).2.sessions = db.sessions := by
  unfold processFrame
  cases analyze_sign_with_ai req.frame req.sign_language env with
  | obj kvs =>
    dsimp only
    cases toNumQ (pyDictGet kvs ("confidence_score") (Json.num 0)) with
    | none => rfl
    | some c =>
      dsimp only
      by_cases hlt : c < 3 / 10
      · rw [if_pos hlt]
      · rw [if_neg hlt]
        cases pyB64Decode (commaSegment req.frame) with
        | none => rfl
        | some bytes =>
          dsimp only
          exact maybeStats_sessions _ _
  | null => rfl
  | bool b => rfl
  | num q => rfl
  | str t => rfl
  | arr xs => rfl

theorem aiConfidence_none_of_notObj (ai : Json)
    (h : ∀ kvs, ai ≠ Json.obj kvs) : aiConfidence ai = none := by
  cases ai <;> first
    | rfl
    | exact absurd rfl (h _)

theorem aiConfidence_some_obj (ai : Json) (c : ℚ) (h : aiConfidence ai = some c) :
    ∃ kvs, ai = Json.obj kvs ∧
      toNumQ (pyDictGet kvs ("confidence_score") (Json.num 0)) = some c := by
  cases ai with
  | obj kvs => exact ⟨kvs, rfl, h⟩
  | _ => exact absurd h (by intro hk; cases hk)

/-! ### Claim theorems -/

/-- C1 amended: for a nonempty-frame submission against an existing
session, a TranslationRecord is persisted iff the classification
confidence is a number at least 0.30 AND the frame payload decodes as
base64 — an undecodable payload raises at the thumbnail-decode step and
ends in the 500 error path with no record even above threshold.  The
below-threshold half of the claim is unchanged: confidence below 0.30
yields the LowConfidence outcome, no record, and no profile change (so
no total_translations increment). -/
theorem frame_persisted_iff_threshold :
    ∀ (db : DB) (req : FrameRequest) (env : Env) (now sid : Nat),
      req.frame ≠ "" → req.session_id = some sid → sid ≠ 0 →
      (∃ s, findSession db sid = some s) →
      (((analyze_frame req env now db).2.records ≠ db.records) ↔
        ((∃ c, aiConfidence (analyze_sign_with_ai req.frame req.sign_language env) =
              some c ∧ 3 / 10 ≤ c) ∧
         (∃ bytes, pyB64Decode (commaSegment req.frame) = some bytes))) ∧
      (∀ c, aiConfidence (analyze_sign_with_ai req.frame req.sign_language env) =
          some c → c < 3 / 10 →
        (analyze_frame req env now db).1 = FrameResp.lowConfidence ∧
        (analyze_frame req env now db).2.records = db.records ∧
        (analyze_frame req env now db).2.profiles = db.profiles) := by
  intro db req env now sid hfr hsid h0 hsess
  obtain ⟨s, hs⟩ := hsess
  have hfound := analyze_frame_found req env now sid db s hfr hsid h0 hs
  rw [hfound]
  constructor
  · by_cases hogo : ∃ kvs,
        analyze_sign_with_ai req.frame req.sign_language env = Json.obj kvs
    · obtain ⟨kvs, hai⟩ := hogo
      cases hcq : toNumQ (pyDictGet kvs ("confidence_score") (Json.num 0)) with
      | none =>
        rw [processFrame_numFail req env now sid _ kvs hai hcq]
        apply iff_of_false
        · intro h
          exact h (setSessionVariant_records db sid req.sign_language)
        · rintro ⟨⟨c, hc, _⟩, _⟩
          obtain ⟨kvs2, hobj2, hcq2⟩ := aiConfidence_some_obj _ c hc
          rw [hai] at hobj2
          injection hobj2 with hk
          subst hk
          rw [hcq] at hcq2
          cases hcq2
      | some c =>
        by_cases hlt : c < 3 / 10
        · rw [processFrame_low req env now sid _ kvs c hai hcq hlt]
          apply iff_of_false
          · intro h
            exact h (setSessionVariant_records db sid req.sign_language)
          · rintro ⟨⟨c2, hc2, hge2⟩, _⟩
            obtain ⟨kvs2, hobj2, hcq2⟩ := aiConfidence_some_obj _ c2 hc2
            rw [hai] at hobj2
            injection hobj2 with hk
            subst hk
            rw [hcq] at hcq2
            injection hcq2 with he
            subst he
            exact absurd hlt (not_lt.mpr hge2)
        · cases hdec : pyB64Decode (commaSegment req.frame) with
          | none =>
            rw [processFrame_badDecode req env now sid _ kvs c hai hcq hlt hdec]
            apply iff_of_false
            · intro h
              exact h (setSessionVariant_records db sid req.sign_language)
            · rintro ⟨_, ⟨bytes, hb⟩⟩
              cases hb
          | some bytes =>
            rw [processFrame_accept req env now sid _ kvs c bytes hai hcq hlt hdec]
            apply iff_of_true
            · dsimp only
              rw [maybeStats_records]
              dsimp only
              rw [setSessionVariant_records]
              intro h
              have hlen := congrArg List.length h
              simp at hlen
            · exact ⟨⟨c, by rw [hai]; exact hcq, not_lt.mp hlt⟩, ⟨bytes, rfl⟩⟩
    · push_neg at hogo
      rw [processFrame_notObj req env now sid _ hogo]
      apply iff_of_false
      · intro h
        exact h (setSessionVariant_records db sid req.sign_language)
      · rintro ⟨⟨c, hc, _⟩, _⟩
        rw [aiConfidence_none_of_notObj _ hogo] at hc
        cases hc
  · intro c hc hlt
    obtain ⟨kvs, hai, hcq⟩ := aiConfidence_some_obj _ c hc
    rw [processFrame_low req env now sid _ kvs c hai hcq hlt]
    exact ⟨rfl, setSessionVariant_records db sid req.sign_language,
           setSessionVariant_profiles db sid req.sign_language⟩

/-- Witness for the amended C1: an accepted fallback-served run at
confidence 0.92 persists a record, and the iff holds for it. -/
theorem frame_persisted_iff_threshold_witness :
    (((analyze_frame ⟨"QUJD", some 1, "ASL", some 10⟩
         ⟨RemoteOutcome.callError, 1⟩ 7 sampleDB).2.records ≠ sampleDB.records) ↔
      ((∃ c, aiConfidence (analyze_sign_with_ai ("QUJD") ("ASL")
            ⟨RemoteOutcome.callError, 1⟩) = some c ∧ (3 : ℚ) / 10 ≤ c) ∧
       (∃ bytes, pyB64Decode (commaSegment ("QUJD")) = some bytes))) ∧
    (∀ c, aiConfidence (analyze_sign_with_ai ("QUJD") ("ASL")
        ⟨RemoteOutcome.callError, 1⟩) = some c → c < 3 / 10 →
      (analyze_frame ⟨"QUJD", some 1, "ASL", some 10⟩
         ⟨RemoteOutcome.callError, 1⟩ 7 sampleDB).1 = FrameResp.lowConfidence ∧
      (analyze_frame ⟨"QUJD", some 1, "ASL", some 10⟩
         ⟨RemoteOutcome.callError, 1⟩ 7 sampleDB).2.records = sampleDB.records ∧
      (analyze_frame ⟨"QUJD", some 1, "ASL", some 10⟩
         ⟨RemoteOutcome.callError, 1⟩ 7 sampleDB).2.profiles = sampleDB.profiles) :=
  frame_persisted_iff_threshold sampleDB ⟨"QUJD", some 1, "ASL", some 10⟩
    ⟨RemoteOutcome.callError, 1⟩ 7 1 (by decide) rfl (by decide) ⟨_, by rfl⟩

/-- Counterexample to C1 as stated: at frame "abc" (nonempty, but not
decodable base64) against the existing session 1, the fallback
classification has confidence 0.92 ≥ 0.30, yet no record is persisted —
the run ends in the 500 error path — so "persisted iff confidence at
least 0.30" fails. -/
theorem frame_persisted_iff_threshold_ce :
    aiConfidence (analyze_sign_with_ai ("abc") ("ASL")
        ⟨RemoteOutcome.callError, 0⟩) = some (92 / 100) ∧
    (3 : ℚ) / 10 ≤ 92 / 100 ∧
    (analyze_frame ⟨"abc", some 1, "ASL", some 10⟩
       ⟨RemoteOutcome.callError, 0⟩ 5 sampleDB).2.records = sampleDB.records ∧
    ¬ (((analyze_frame ⟨"abc", some 1, "ASL", some 10⟩
           ⟨RemoteOutcome.callError, 0⟩ 5 sampleDB).2.records ≠ sampleDB.records) ↔
        (3 : ℚ) / 10 ≤ 92 / 100) := by
  have h1 : analyze_frame ⟨"abc", some 1, "ASL", some 10⟩
      ⟨RemoteOutcome.callError, 0⟩ 5 sampleDB =
      processFrame ⟨"abc", some 1, "ASL", some 10⟩ ⟨RemoteOutcome.callError, 0⟩
        5 1 (setSessionVariant sampleDB 1 "ASL") :=
    analyze_frame_found ⟨"abc", some 1, "ASL", some 10⟩
      ⟨RemoteOutcome.callError, 0⟩ 5 1 sampleDB _ (by decide) rfl (by decide) (by rfl)
  have h2 : processFrame ⟨"abc", some 1, "ASL", some 10⟩ ⟨RemoteOutcome.callError, 0⟩
      5 1 (setSessionVariant sampleDB 1 "ASL") =
      (FrameResp.internalError, setSessionVariant sampleDB 1 "ASL") :=
    processFrame_badDecode ⟨"abc", some 1, "ASL", some 10⟩ ⟨RemoteOutcome.callError, 0⟩
      5 1 _ _ (92 / 100) (by rfl) (by rfl) (by norm_num) (by rfl)
  have hrec : (analyze_frame ⟨"abc", some 1, "ASL", some 10⟩
      ⟨RemoteOutcome.callError, 0⟩ 5 sampleDB).2.records = sampleDB.records := by
    rw [h1, h2, setSessionVariant_records]
  refine ⟨by rfl, by norm_num, hrec, ?_⟩
  intro h
  exact (h.mpr (by norm_num)) hrec

/-- C2: `analyze_sign_with_ai` never lets a failure escape: when the
library import or the remote interaction fails, and likewise when the
response text is not well-formed JSON after code-fence stripping, it
returns an entry of the fixed fallback catalog; and every catalog entry
is an object carrying exactly the fields detected_sign, translated_text,
confidence_score, description. -/
theorem classify_never_propagates :
    (∀ (frame lang : String) (k : Nat),
       analyze_sign_with_ai frame lang ⟨RemoteOutcome.importError, k⟩ ∈ demoSigns ∧
       analyze_sign_with_ai frame lang ⟨RemoteOutcome.callError, k⟩ ∈ demoSigns) ∧
    (∀ (frame lang t : String) (k : Nat),
       jsonLoads (stripFences (pyStrip t)) = none →
       analyze_sign_with_ai frame lang ⟨RemoteOutcome.response t, k⟩ ∈ demoSigns) ∧
    (∀ d ∈ demoSigns, ∃ kvs, d = Json.obj kvs ∧
       kvs.map Prod.fst =
         ["detected_sign", "translated_text", "confidence_score", "description"]) := by
  refine ⟨?_, ?_, ?_⟩
  · intro frame lang k
    exact ⟨by rw [analyze_sign_with_ai_fallback _ _ _ (Or.inl rfl)]
              exact demo_response_mem k,
           by rw [analyze_sign_with_ai_fallback _ _ _ (Or.inr rfl)]
              exact demo_response_mem k⟩
  · intro frame lang t k hp
    unfold analyze_sign_with_ai
    dsimp only
    split
    · exact demo_response_mem k
    · simp only [hp]
      exact demo_response_mem k
  · intro d hd
    fin_cases hd <;> exact ⟨_, rfl, rfl⟩

/-- Witness for C2 at a concrete non-JSON remote response. -/
theorem classify_never_propagates_witness :
    jsonLoads (stripFences (pyStrip ("this is not json"))) = none ∧
    analyze_sign_with_ai ("QUJD") ("ASL")
        ⟨RemoteOutcome.response ("this is not json"), 3⟩ ∈ demoSigns :=
  ⟨by rfl, classify_never_propagates.2.1 ("QUJD") ("ASL") ("this is not json") 3 (by rfl)⟩

/-- C10 amended: every fallback-catalog entry has confidence at least
0.85, hence at least the 0.30 gate; and a frame submission against an
existing session that is served by the fallback path yields the Accepted
outcome with one persisted record, provided the frame payload itself
decodes as base64 — an undecodable payload instead raises at the
thumbnail-decode step and ends in the 500 error path with no record. -/
theorem fallback_path_accepts :
    (∀ d ∈ demoSigns, ∃ c, aiConfidence d = some c ∧ 85 / 100 ≤ c ∧ 3 / 10 ≤ c) ∧
    (∀ (db : DB) (req : FrameRequest) (env : Env) (now sid : Nat),
       req.frame ≠ "" → req.session_id = some sid → sid ≠ 0 →
       (∃ s, findSession db sid = some s) →
       (env.remote = RemoteOutcome.importError ∨ env.remote = RemoteOutcome.callError) →
       (∃ bytes, pyB64Decode (commaSegment req.frame) = some bytes) →
       (∃ rid ds tt cs de,
          (analyze_frame req env now db).1 = FrameResp.success rid ds tt cs de) ∧
       (analyze_frame req env now db).2.records.length = db.records.length + 1) := by
  constructor
  · intro d hd
    obtain ⟨kvs, c, hobj, hc, h85⟩ := demoSigns_accept d hd
    refine ⟨c, ?_, h85, le_trans (by norm_num) h85⟩
    rw [hobj]
    exact hc
  · intro db req env now sid hfr hsid h0 hsess hrem hdec
    obtain ⟨s, hs⟩ := hsess
    obtain ⟨bytes, hbytes⟩ := hdec
    have hai := analyze_sign_with_ai_fallback req.frame req.sign_language env hrem
    obtain ⟨kvs, c, hobj, hc, h85⟩ := demoSigns_accept _ (demo_response_mem env.rand)
    have hobj2 : analyze_sign_with_ai req.frame req.sign_language env = Json.obj kvs := by
      rw [hai, hobj]
    have hge : ¬ c < 3 / 10 := not_lt.mpr (le_trans (by norm_num) h85)
    rw [analyze_frame_found req env now sid db s hfr hsid h0 hs,
      processFrame_accept req env now sid _ kvs c bytes hobj2 hc hge hbytes]
    refine ⟨⟨_, _, _, _, _, rfl⟩, ?_⟩
    dsimp only
    rw [maybeStats_records]
    dsimp only
    rw [List.length_append, setSessionVariant_records]
    rfl

/-- Witness for the amended C10 at a concrete fallback-served run. -/
theorem fallback_path_accepts_witness :
    (∃ rid ds tt cs de,
       (analyze_frame ⟨"QUJD", some 1, "ASL", some 10⟩
          ⟨RemoteOutcome.callError, 0⟩ 5 sampleDB).1 =
         FrameResp.success rid ds tt cs de) ∧
    (analyze_frame ⟨"QUJD", some 1, "ASL", some 10⟩
       ⟨RemoteOutcome.callError, 0⟩ 5 sampleDB).2.records.length =
      sampleDB.records.length + 1 :=
  fallback_path_accepts.2 sampleDB ⟨"QUJD", some 1, "ASL", some 10⟩
    ⟨RemoteOutcome.callError, 0⟩ 5 1 (by decide) rfl (by decide)
    ⟨_, by rfl⟩ (Or.inr rfl) ⟨_, by rfl⟩

/-- Counterexample to C10 as stated: the frame "abcde" is nonempty and the
session exists, the submission is served by the fallback path (confidence
0.92, well above 0.30), yet the endpoint answers the 500 error path and
persists nothing, because the payload is not decodable base64. -/
theorem fallback_path_accepts_ce :
    analyze_sign_with_ai ("abcde") ("ASL") ⟨RemoteOutcome.callError, 2⟩ =
      _demo_response 2 ∧
    pyB64Decode ("abcde") = none ∧
    (analyze_frame ⟨"abcde", some 1, "ASL", some 10⟩
       ⟨RemoteOutcome.callError, 2⟩ 5 sampleDB).1 = FrameResp.internalError ∧
    (analyze_frame ⟨"abcde", some 1, "ASL", some 10⟩
       ⟨RemoteOutcome.callError, 2⟩ 5 sampleDB).2.records = sampleDB.records := by
  have h1 : analyze_frame ⟨"abcde", some 1, "ASL", some 10⟩
      ⟨RemoteOutcome.callError, 2⟩ 5 sampleDB =
      processFrame ⟨"abcde", some 1, "ASL", some 10⟩ ⟨RemoteOutcome.callError, 2⟩
        5 1 (setSessionVariant sampleDB 1 "ASL") :=
    analyze_frame_found ⟨"abcde", some 1, "ASL", some 10⟩
      ⟨RemoteOutcome.callError, 2⟩ 5 1 sampleDB _ (by decide) rfl (by decide) (by rfl)
  have h2 : processFrame ⟨"abcde", some 1, "ASL", some 10⟩ ⟨RemoteOutcome.callError, 2⟩
      5 1 (setSessionVariant sampleDB 1 "ASL") =
      (FrameResp.internalError, setSessionVariant sampleDB 1 "ASL") :=
    processFrame_badDecode ⟨"abcde", some 1, "ASL", some 10⟩ ⟨RemoteOutcome.callError, 2⟩
      5 1 _ _ (85 / 100) (by rfl) (by rfl) (by norm_num) (by rfl)
  refine ⟨by rfl, by rfl, ?_, ?_⟩
  · rw [h1, h2]
  · rw [h1, h2, setSessionVariant_records]

/-- C3 amended: the total_translations increment is a read-modify-write —
the stored value is the counter fetched by get_or_create plus one — not an
atomic storage-side update.  Serially executed stats blocks add one each
(so N non-overlapping accepted submissions add N, and a single accepted
authenticated submission adds exactly one), but interleaving the storage
steps of two concurrent submissions — both fetch, then both store —
leaves the counter at its pre-existing value plus 1: one update is lost. -/
theorem usage_increment_read_modify_write :
    (∀ (db : DB) (uid : Nat),
       readTotal (updateUserStats db uid) uid = readTotal db uid + 1) ∧
    (∀ (db : DB) (uid n : Nat),
       readTotal (serializedIncrements db uid n) uid = readTotal db uid + n) ∧
    (∀ (db : DB) (uid : Nat),
       readTotal (interleavedTwoIncrements db uid) uid = readTotal db uid + 1) ∧
    (∀ (db : DB) (req : FrameRequest) (env : Env) (now sid : Nat)
       (kvs : List (String × Json)) (c : ℚ) (bytes : List Nat) (uid : Nat),
       req.frame ≠ "" → req.session_id = some sid → sid ≠ 0 →
       (∃ s, findSession db sid = some s) →
       analyze_sign_with_ai req.frame req.sign_language env = Json.obj kvs →
       toNumQ (pyDictGet kvs ("confidence_score") (Json.num 0)) = some c →
       ¬ c < 3 / 10 →
       pyB64Decode (commaSegment req.frame) = some bytes →
       req.user = some uid →
       readTotal (analyze_frame req env now db).2 uid = readTotal db uid + 1) := by
  refine ⟨readTotal_updateUserStats, serializedIncrements_total,
    interleavedTwoIncrements_total, ?_⟩
  intro db req env now sid kvs c bytes uid hfr hsid h0 hsess hobj hc hge hdec huser
  obtain ⟨s, hs⟩ := hsess
  rw [analyze_frame_found req env now sid db s hfr hsid h0 hs,
    processFrame_accept req env now sid _ kvs c bytes hobj hc hge hdec]
  dsimp only
  rw [huser]
  unfold maybeStats
  dsimp only
  rw [readTotal_updateUserStats]
  exact congrArg (fun x => x + 1)
    (readTotal_eq_of_profiles _ db uid
      (setSessionVariant_profiles db sid req.sign_language))

/-- Witness for the amended C3: one accepted authenticated fallback run
lifts the counter of user 10 from 5 to 6. -/
theorem usage_increment_read_modify_write_witness :
    readTotal (analyze_frame ⟨"QUJD", some 1, "ASL", some 10⟩
       ⟨RemoteOutcome.callError, 4⟩ 9 sampleDBCounter).2 10 =
      readTotal sampleDBCounter 10 + 1 :=
  usage_increment_read_modify_write.2.2.2 sampleDBCounter
    ⟨"QUJD", some 1, "ASL", some 10⟩ ⟨RemoteOutcome.callError, 4⟩ 9 1
    _ (90 / 100) [65, 66, 67] 10 (by decide) rfl (by decide) ⟨_, by rfl⟩
    (by rfl) (by rfl) (by norm_num) (by rfl) rfl

/-- Counterexample to C3 as stated: with the counter pre-existing at 5,
two concurrent accepted submissions whose read-modify-write steps
interleave (both fetch before either stores) leave it at 6, not 5 + 2 —
the increment is not an atomic counter update and updates can be lost. -/
theorem usage_increment_read_modify_write_ce :
    readTotal sampleDBCounter 10 = 5 ∧
    readTotal (interleavedTwoIncrements sampleDBCounter 10) 10 = 6 ∧
    readTotal (interleavedTwoIncrements sampleDBCounter 10) 10 ≠ 5 + 2 := by
  refine ⟨by rfl, by rfl, ?_⟩
  intro h
  rw [show readTotal (interleavedTwoIncrements sampleDBCounter 10) 10 = 6 by rfl] at h
  cases h

/-- C4: end_session answers the not-found failure when the session does
not exist; on an existing session it sets status completed and stamps
ended_at with the close time; a second close of the now-Completed session
raises no error and simply re-stamps ended_at with the newer time. -/
theorem close_session_spec :
    (∀ (db : DB) (sid : Option Nat) (now : Nat),
       sid.bind (fun i => findSession db i) = none →
       end_session sid now db = (EndResp.sessionNotFound, db)) ∧
    (∀ (db : DB) (sid now now2 : Nat) (s : TranslationSession),
       findSession db sid = some s →
       (end_session (some sid) now db).1 = EndResp.ok ∧
       findSession (end_session (some sid) now db).2 sid =
         some { s with status := "completed", ended_at := some now } ∧
       (end_session (some sid) now2 (end_session (some sid) now db).2).1 =
         EndResp.ok ∧
       findSession (end_session (some sid) now2
           (end_session (some sid) now db).2).2 sid =
         some { s with status := "completed", ended_at := some now2 }) := by
  constructor
  · exact fun db sid now h => end_session_notFound db sid now h
  · intro db sid now now2 s hs
    have h2 := findSession_end_session db sid now s hs
    refine ⟨by rw [end_session_found db sid now s hs], h2, ?_, ?_⟩
    · rw [end_session_found _ sid now2 _ h2]
    · exact findSession_end_session _ sid now2
        { s with status := "completed", ended_at := some now } h2

/-- Witness for C4: closing session 1 of the sample database at time 9,
then again at time 11; closing the absent session 2 fails. -/
theorem close_session_spec_witness :
    end_session (some 2) 9 sampleDB = (EndResp.sessionNotFound, sampleDB) ∧
    (end_session (some 1) 9 sampleDB).1 = EndResp.ok ∧
    findSession (end_session (some 1) 9 sampleDB).2 1 =
      some { id := 1, user := some 10, sign_language := none, started_at := 0,
             ended_at := some 9, status := "completed", device_info := "" } ∧
    (end_session (some 1) 11 (end_session (some 1) 9 sampleDB).2).1 =
      EndResp.ok ∧
    findSession (end_session (some 1) 11 (end_session (some 1) 9 sampleDB).2).2 1 =
      some { id := 1, user := some 10, sign_language := none, started_at := 0,
             ended_at := some 11, status := "completed", device_info := "" } :=
  ⟨close_session_spec.1 sampleDB (some 2) 9 (by rfl),
   close_session_spec.2 sampleDB 1 9 11
     { id := 1, user := some 10, sign_language := none, started_at := 0,
       ended_at := none, status := "active", device_info := "" } (by rfl)⟩

/-- C5: a sign-language code that matches no registered variant makes the
variant update a silent no-op — the whole database, in particular the
session row, is untouched by that step, no failure is raised, and the
submission proceeds exactly as the pipeline after the variant step on the
unchanged database: classification still runs. -/
theorem unknown_variant_silent_noop :
    ∀ (db : DB) (req : FrameRequest) (env : Env) (now sid : Nat),
      findLanguage db req.sign_language = none →
      setSessionVariant db sid req.sign_language = db ∧
      (req.frame ≠ "" → req.session_id = some sid → sid ≠ 0 →
        (∃ s, findSession db sid = some s) →
        analyze_frame req env now db = processFrame req env now sid db ∧
        (analyze_frame req env now db).2.sessions = db.sessions) := by
  intro db req env now sid hlang
  have hnoop : setSessionVariant db sid req.sign_language = db := by
    unfold setSessionVariant
    rw [hlang]
  refine ⟨hnoop, ?_⟩
  intro hfr hsid h0 hsess
  obtain ⟨s, hs⟩ := hsess
  have hfound := analyze_frame_found req env now sid db s hfr hsid h0 hs
  rw [hfound, hnoop]
  exact ⟨rfl, processFrame_sessions req env now sid db⟩

/-- Witness for C5: the code KSL is not registered in the sample
database; the variant step is a no-op and the frame still goes through
classification. -/
theorem unknown_variant_silent_noop_witness :
    setSessionVariant sampleDB 1 "KSL" = sampleDB ∧
    analyze_frame ⟨"QUJD", some 1, "KSL", none⟩
        ⟨RemoteOutcome.callError, 0⟩ 5 sampleDB =
      processFrame ⟨"QUJD", some 1, "KSL", none⟩
        ⟨RemoteOutcome.callError, 0⟩ 5 1 sampleDB ∧
    (analyze_frame ⟨"QUJD", some 1, "KSL", none⟩
        ⟨RemoteOutcome.callError, 0⟩ 5 sampleDB).2.sessions =
      sampleDB.sessions :=
  have h := unknown_variant_silent_noop sampleDB ⟨"QUJD", some 1, "KSL", none⟩
    ⟨RemoteOutcome.callError, 0⟩ 5 1 (by rfl)
  ⟨h.1, (h.2 (by decide) rfl (by decide) ⟨_, by rfl⟩).1,
    (h.2 (by decide) rfl (by decide) ⟨_, by rfl⟩).2⟩

/-- C6, evaluated at the failing input: `submit_feedback` performs no
range check on the rating — a supplied rating of 7, outside the 1..5
domain that the Feedback model declares through its rating choices, is
accepted (`ok` response) and persisted verbatim.  The defaulting half of
the claim does hold: with no rating supplied the created row carries the
default rating 3. -/
theorem feedback_rating_unchecked :
    (submit_feedback ⟨some 7, some 7, "", "", none⟩ sampleDBWithRecord).1 =
      FeedbackResp.ok ∧
    (submit_feedback ⟨some 7, some 7, "", "", none⟩ sampleDBWithRecord).2.feedbacks =
      [{ id := 1, record := 7, user := none, rating := 7,
         correct_translation := "", comment := "" }] ∧
    ¬ ((1 : Int) ≤ 7 ∧ (7 : Int) ≤ 5) ∧
    (submit_feedback ⟨some 7, none, "", "", none⟩ sampleDBWithRecord).1 =
      FeedbackResp.ok ∧
    (submit_feedback ⟨some 7, none, "", "", none⟩ sampleDBWithRecord).2.feedbacks =
      [{ id := 1, record := 7, user := none, rating := 3,
         correct_translation := "", comment := "" }] :=
  ⟨by rfl, by rfl, by decide, by rfl, by rfl⟩

/-- C7: submit_frame demands a nonempty frame and a present session id —
otherwise the 400 missing-fields error — and an existing session —
otherwise the not-found failure (surfaced through the blanket handler). -/
theorem submit_frame_preconditions :
    (∀ (db : DB) (req : FrameRequest) (env : Env) (now : Nat),
       req.frame = "" ∨ req.session_id = none →
       analyze_frame req env now db = (FrameResp.missingFields, db) ∧
       FrameResp.missingFields.httpStatus = 400) ∧
    (∀ (db : DB) (req : FrameRequest) (env : Env) (now sid : Nat),
       req.frame ≠ "" → req.session_id = some sid → sid ≠ 0 →
       findSession db sid = none →
       analyze_frame req env now db = (FrameResp.sessionNotFound, db)) := by
  constructor
  · intro db req env now h
    refine ⟨analyze_frame_missing req env now db ?_, rfl⟩
    rcases h with h | h
    · exact Or.inl h
    · refine Or.inr ?_
      rw [h]
      rfl
  · intro db req env now sid h1 h2 h3 h4
    exact analyze_frame_notFound req env now sid db h1 h2 h3 h4

/-- Witness for C7: an empty frame is answered 400; a missing session id
is answered 400; session 99 does not exist and is answered not-found. -/
theorem submit_frame_preconditions_witness :
    (analyze_frame ⟨"", some 1, "ASL", none⟩ ⟨RemoteOutcome.callError, 0⟩ 5 sampleDB =
       (FrameResp.missingFields, sampleDB) ∧
     FrameResp.missingFields.httpStatus = 400) ∧
    (analyze_frame ⟨"QUJD", none, "ASL", none⟩ ⟨RemoteOutcome.callError, 0⟩ 5 sampleDB =
       (FrameResp.missingFields, sampleDB) ∧
     FrameResp.missingFields.httpStatus = 400) ∧
    analyze_frame ⟨"QUJD", some 99, "ASL", none⟩ ⟨RemoteOutcome.callError, 0⟩ 5 sampleDB =
      (FrameResp.sessionNotFound, sampleDB) :=
  ⟨submit_frame_preconditions.1 sampleDB ⟨"", some 1, "ASL", none⟩
     ⟨RemoteOutcome.callError, 0⟩ 5 (Or.inl rfl),
   submit_frame_preconditions.1 sampleDB ⟨"QUJD", none, "ASL", none⟩
     ⟨RemoteOutcome.callError, 0⟩ 5 (Or.inr rfl),
   submit_frame_preconditions.2 sampleDB ⟨"QUJD", some 99, "ASL", none⟩
     ⟨RemoteOutcome.callError, 0⟩ 5 99 (by decide) rfl (by decide) (by rfl)⟩

/-- C8: feedback against a record id that references no existing
TranslationRecord fails with the not-found outcome and leaves the
database — in particular the feedback table — unchanged. -/
theorem feedback_unknown_record_rejected :
    ∀ (db : DB) (req : FeedbackRequest),
      req.record_id.bind (fun r => db.records.find? (fun t => t.id = r)) = none →
      submit_feedback req db = (FeedbackResp.recordNotFound, db) := by
  intro db req h
  unfold submit_feedback
  rw [h]

/-- Witness for C8: record 42 does not exist in the sample database. -/
theorem feedback_unknown_record_rejected_witness :
    submit_feedback ⟨some 42, some 5, "", "", none⟩ sampleDBWithRecord =
      (FeedbackResp.recordNotFound, sampleDBWithRecord) :=
  feedback_unknown_record_rejected sampleDBWithRecord
    ⟨some 42, some 5, "", "", none⟩ (by rfl)

/-- C9: on an accepted submission the persisted record stores the 0-1
confidence unscaled, and the success response surfaces exactly that
stored value multiplied by 100 and rounded to one decimal place. -/
theorem confidence_scaled_in_response :
    ∀ (db : DB) (req : FrameRequest) (env : Env) (now sid : Nat)
      (kvs : List (String × Json)) (c : ℚ) (bytes : List Nat),
      req.frame ≠ "" → req.session_id = some sid → sid ≠ 0 →
      (∃ s, findSession db sid = some s) →
      analyze_sign_with_ai req.frame req.sign_language env = Json.obj kvs →
      toNumQ (pyDictGet kvs ("confidence_score") (Json.num 0)) = some c →
      ¬ c < 3 / 10 →
      pyB64Decode (commaSegment req.frame) = some bytes →
      ∃ r rid ds tt de,
        (analyze_frame req env now db).2.records = db.records ++ [r] ∧
        r.confidence_score = c ∧
        (analyze_frame req env now db).1 =
          FrameResp.success rid ds tt (pyRound1 (r.confidence_score * 100)) de := by
  intro db req env now sid kvs c bytes hfr hsid h0 hsess hobj hc hge hdec
  obtain ⟨s, hs⟩ := hsess
  rw [analyze_frame_found req env now sid db s hfr hsid h0 hs,
    processFrame_accept req env now sid _ kvs c bytes hobj hc hge hdec]
  refine ⟨acceptedRecord now sid (setSessionVariant db sid req.sign_language) kvs c bytes,
    _, _, _, _, ?_, rfl, rfl⟩
  dsimp only
  rw [maybeStats_records]
  dsimp only
  rw [setSessionVariant_records]

/-- Witness for C9 at stored confidence 0.92: the surfaced value is
round(0.92 * 100, 1) = 92.0, while the record keeps 0.92. -/
theorem confidence_scaled_in_response_witness :
    pyRound1 ((92 / 100 : ℚ) * 100) = 92 ∧
    (∃ r rid ds tt de,
       (analyze_frame ⟨"QUJD", some 1, "ASL", some 10⟩
          ⟨RemoteOutcome.callError, 0⟩ 5 sampleDB).2.records =
         sampleDB.records ++ [r] ∧
       r.confidence_score = 92 / 100 ∧
       (analyze_frame ⟨"QUJD", some 1, "ASL", some 10⟩
          ⟨RemoteOutcome.callError, 0⟩ 5 sampleDB).1 =
         FrameResp.success rid ds tt (pyRound1 (r.confidence_score * 100)) de) :=
  ⟨by
    unfold pyRound1 roundHalfEven
    norm_num,
   confidence_scaled_in_response sampleDB ⟨"QUJD", some 1, "ASL", some 10⟩
     ⟨RemoteOutcome.callError, 0⟩ 5 1 _ (92 / 100) [65, 66, 67]
     (by decide) rfl (by decide) ⟨_, by rfl⟩ (by rfl) (by rfl) (by norm_num) (by rfl)⟩

end SignBridge
